import Mathlib

/-!
Verification of the eviction admission-decision engine of the
couchbase reschedule hook, together with its same-name rescheduling-tracking
protocol.

The embedding covers:
* the data model (pods, annotation maps, tracking-resource instances);
* the tracking-backend capability set and the two built-in variants
  (`couchbasecluster`, `namespace`), translated from
  `src/pkg/reschedule/tracking/`;
* the decision engine `Reschedule.decide` — the current implementation of
  `handleEviction` and of the per-key client operations is not present under
  `src/` (only its unit tests, e2e tests and the tracking backends are), so
  those definitions are modelled from the spec, corroborated by the tests;
* the superseded list-based pipeline that is present verbatim under
  `src/pkg/reschedule/reschedule.go` and `src/pkg/reschedule/client.go`
  (namespace `ListTracking`), used for the claims that cite that code.

Kubernetes annotation/label maps are modelled as functions
`String → Option String` (a missing key is `none`); Go's zero-value map read
`m[k]` is `labelValue`. Single-key JSON merge patches are `setAnn`/`delAnn`.
Remote-call failures are injected through an explicit `Faults` record, one
flag per accessor call site, so that theorems can quantify over arbitrary
failure patterns.
-/

/-- An annotation or label map: total function from keys to optional values,
mirroring a Go `map[string]string` (absent key is `none`). -/
def AnnMap : Type := String → Option String

/-- Single-key write, the effect of `addResourceAnnotation` in
`src/pkg/reschedule/client.go` (a JSON merge patch setting exactly one
annotation key). -/
def setAnn (m : AnnMap) (k v : String) : AnnMap :=
  fun q => if q = k then some v else m q

/-- Single-key delete, the effect of `removeResourceAnnotation` in
`src/pkg/reschedule/client.go` (a JSON merge patch with a null value for
exactly one key); deleting an absent key is a no-op. -/
def delAnn (m : AnnMap) (k : String) : AnnMap :=
  fun q => if q = k then none else m q

/-- The empty annotation map. -/
def emptyAnn : AnnMap := fun _ => none

/-- A pod, as the engine sees it: identity plus label and annotation maps
(`corev1.Pod` restricted to the fields the engine reads). -/
structure Pod where
  name : String
  ns : String
  labels : AnnMap
  annotations : AnnMap

/-- Go map indexing with the string zero value: `pod.Labels[k]` yields `""`
when the key is absent. -/
def labelValue (m : AnnMap) (k : String) : String :=
  (m k).getD ""

/-- Result of `unstructured.NestedString(obj, "spec", "upgradeProcess")`:
the field can be absent, present but not a string (read error), or a
string. -/
inductive NestedField where
  | missing
  | wrongType
  | str (s : String)
deriving DecidableEq

/-- A tracking-resource instance (an `unstructured.Unstructured` such as a
CouchbaseCluster or a Namespace) restricted to what the engine reads: its
annotation map and its `spec.upgradeProcess` field (Namespace objects simply
carry `NestedField.missing`). -/
structure TrackingInstanceObj where
  annotations : AnnMap
  upgradeProcessField : NestedField

/-- Constants from `src/pkg/reschedule/client.go`. `RescheduleTrue = "true"`. -/
def RescheduleTrue : String := "true"

/-- Source constant `RescheduleHookTrackingAnnotationPrefix` from
`src/pkg/reschedule/client.go`: the fixed leading part of every per-pod
tracking-flag key. -/
def RescheduleHookTrackingPrefixStr : String := "reschedule.hook/"

/-- Source constant `RescheduleAnnotation` from
`src/pkg/reschedule/client.go`: the reschedule-marker key. -/
def RescheduleAnnotationKey : String := "cao.couchbase.com/reschedule"

/-- Source constant `RescheduleHookPodsListAnnotation` from
`src/pkg/reschedule/client.go`: the single aggregated-list key used by the
superseded list-based encoding. -/
def RescheduleHookPodsListAnnotationKey : String := "reschedule.hook/rescheduledPod"

/-- Source constant `CouchbaseClusterLabelKey` from
`src/pkg/reschedule/client.go`. -/
def CouchbaseClusterLabelKey : String := "couchbase_cluster"

/-- Source constant `InPlaceUpgradeStrategyValue` from
`src/pkg/reschedule/client.go`. -/
def InPlaceUpgradeStrategyValue : String := "InPlaceUpgrade"

/-- Modelled from the spec: the per-pod tracking-flag key
`<fixed-prefix><namespace>.<name>` (§3, "Per-Pod Tracking Flag"). The
function `TrackingResourceAnnotation(podName, podNamespace)` it models is
absent from `src/` — only its callers in the unit tests
(`src/pkg/reschedule/reschedule.go`, second document) and e2e tests use it —
so the key shape follows the spec's words; the argument order follows the
test call sites. -/
def TrackingResourceAnnotationKey (podName podNamespace : String) : String :=
  RescheduleHookTrackingPrefixStr ++ podNamespace ++ "." ++ podName

/-- Modelled from the spec: writing the per-pod tracking flag is a
single-field, single-key mutation of the instance's annotation map with
value `"true"` (§4.2, key invariant; the current
`AddRescheduleHookTrackingAnnotation` client code is absent from `src/`). -/
def addTrackingFlag (m : AnnMap) (podName podNamespace : String) : AnnMap :=
  setAnn m (TrackingResourceAnnotationKey podName podNamespace) RescheduleTrue

/-- Modelled from the spec: clearing the per-pod tracking flag is a
single-key delete-if-present of the same key (§4.2; the current
`RemoveRescheduleHookTrackingAnnotation` client code is absent from
`src/`). -/
def removeTrackingFlag (m : AnnMap) (podName podNamespace : String) : AnnMap :=
  delAnn m (TrackingResourceAnnotationKey podName podNamespace)

/-- The tracking-backend capability set, from the `TrackingResource`
interface in `src/pkg/reschedule/tracking/trackingresource.go` (the
`GetResourceInterface` addressing method is transport and not modelled). -/
structure TrackingResource where
  getResourceType : String
  getInstanceName : Pod → String
  shouldTrack : TrackingInstanceObj → Bool

/-- `CouchbaseClusterTrackingResource` from
`src/pkg/reschedule/tracking/couchbasecluster.go`: the instance is named by
the pod's `couchbase_cluster` label; `ShouldTrack` reads
`spec.upgradeProcess` and is true exactly for `"InPlaceUpgrade"`, false on a
missing or non-string field. -/
def CouchbaseClusterTrackingResource : TrackingResource where
  getResourceType := "couchbasecluster"
  getInstanceName := fun pod => labelValue pod.labels CouchbaseClusterLabelKey
  shouldTrack := fun inst =>
    match inst.upgradeProcessField with
    | NestedField.str s => s == InPlaceUpgradeStrategyValue
    | _ => false

/-- `NamespaceTrackingResource` from
`src/pkg/reschedule/tracking/namespace.go`: the instance is the pod's own
namespace and tracking is always eligible. -/
def NamespaceTrackingResource : TrackingResource where
  getResourceType := "namespace"
  getInstanceName := fun pod => pod.ns
  shouldTrack := fun _ => true

/-- `GetTrackingResource` from
`src/pkg/reschedule/tracking/trackingresource.go`: registry lookup over the
two built-in kinds, defaulting to the couchbasecluster variant for unknown
identifiers. -/
def GetTrackingResource (resourceType : String) : TrackingResource :=
  if resourceType = "namespace" then NamespaceTrackingResource
  else if resourceType = "couchbasecluster" then CouchbaseClusterTrackingResource
  else CouchbaseClusterTrackingResource

/-- The configuration snapshot, from the `Config` structure in the config
source (second document of `src/pkg/reschedule/tracking/trackingresource.go`);
the TLS file paths are transport-only and not modelled. -/
structure Config where
  rescheduleAnnotationValue : String
  rescheduleAnnotationKey : String
  trackRescheduledPods : Bool
  podLabelSelectorKey : String
  podLabelSelectorValue : String
  trackingResource : TrackingResource

/-- The defaults of `NewConfigBuilder` in the config source. -/
def defaultConfig : Config where
  rescheduleAnnotationValue := "true"
  rescheduleAnnotationKey := RescheduleAnnotationKey
  trackRescheduledPods := true
  podLabelSelectorKey := "app"
  podLabelSelectorValue := "couchbase"
  trackingResource := GetTrackingResource "couchbasecluster"

/-- The admission verdict of the decision engine (spec §4.1): `Allow` or
`Deny(httpStatus, reasonCode, message)`. -/
inductive Verdict where
  | allow
  | deny (code : Nat) (reason : String) (message : String)
deriving DecidableEq

/-- The remote cluster store reached through the accessor: pods keyed by
(namespace, name) and tracking-resource instances keyed by
(namespace, instance name). -/
structure ClusterState where
  pods : String → String → Option Pod
  insts : String → String → Option TrackingInstanceObj

/-- Replace the pod stored under (namespace, name). -/
def setPod (pods : String → String → Option Pod) (ns n : String) (p : Pod) :
    String → String → Option Pod :=
  fun ns' n' => if ns' = ns ∧ n' = n then some p else pods ns' n'

/-- Replace the tracking instance stored under (namespace, name). -/
def setInst (insts : String → String → Option TrackingInstanceObj) (ns n : String)
    (i : TrackingInstanceObj) : String → String → Option TrackingInstanceObj :=
  fun ns' n' => if ns' = ns ∧ n' = n then some i else insts ns' n'

/-- Fault injection for the accessor calls: one flag per remote call site.
`true` means that call returns a transient infrastructure error. -/
structure Faults where
  getPodFail : Bool
  getInstanceFail : Bool
  addFlagFail : Bool
  removeFlagFail : Bool
  reschedulePodFail : Bool

/-- All accessor calls succeed. -/
def noFaults : Faults := ⟨false, false, false, false, false⟩

namespace Reschedule

/-- Modelled from the spec: engine step 5, "Mark for reschedule" (§4.1). The
current `handleEviction` tail is absent from `src/`. Patch failure is a
terminal Deny(500); on success the reschedule marker is patched onto the pod
and the verdict is Deny(429, TooManyRequests,
"reschedule annotation added to pod"). -/
def markStep (cfg : Config) (f : Faults) (st : ClusterState) (evNs evName : String)
    (pod : Pod) : Verdict × ClusterState :=
  if f.reschedulePodFail then
    (Verdict.deny 500 "InternalError" "failed to add reschedule annotation", st)
  else
    (Verdict.deny 429 "TooManyRequests" "reschedule annotation added to pod",
     { st with
        pods := setPod st.pods evNs evName
          { pod with
             annotations := setAnn pod.annotations cfg.rescheduleAnnotationKey
               cfg.rescheduleAnnotationValue } })

/-- Modelled from the spec: the tracking sub-protocol (§4.2). The current
implementation is absent from `src/`; the behaviour follows the spec's five
steps and matches `TestHandleEviction` in the unit tests present under
`src/pkg/reschedule/reschedule.go`: resolve and fetch the instance (fetch
failure or absence → Deny 500); a flag present with value `"true"` is
cleared and yields Deny(404, NotFound, "pod rescheduled with same name");
an absent flag is written (value `"true"`) only when the backend's
eligibility predicate holds, and control falls through to the mark step. -/
def trackingStep (cfg : Config) (f : Faults) (st : ClusterState) (evNs evName : String)
    (pod : Pod) : Verdict × ClusterState :=
  let instName := cfg.trackingResource.getInstanceName pod
  if f.getInstanceFail then
    (Verdict.deny 500 "InternalError" "failed to get tracking resource", st)
  else
    match st.insts evNs instName with
    | none => (Verdict.deny 500 "InternalError" "failed to get tracking resource", st)
    | some inst =>
      if inst.annotations (TrackingResourceAnnotationKey evName evNs) = some RescheduleTrue then
        if f.removeFlagFail then
          (Verdict.deny 500 "InternalError" "failed to remove tracking annotation", st)
        else
          (Verdict.deny 404 "NotFound" "pod rescheduled with same name",
           { st with
              insts := setInst st.insts evNs instName
                { inst with annotations := removeTrackingFlag inst.annotations evName evNs } })
      else if cfg.trackingResource.shouldTrack inst then
        if f.addFlagFail then
          (Verdict.deny 500 "InternalError" "failed to add tracking annotation", st)
        else
          markStep cfg f
            { st with
               insts := setInst st.insts evNs instName
                 { inst with annotations := addTrackingFlag inst.annotations evName evNs } }
            evNs evName pod
      else
        markStep cfg f st evNs evName pod

/-- Modelled from the spec: the eviction decision engine `decide` (§4.1),
whose current implementation (`handleEviction` at the repository head) is
absent from `src/` — only its unit tests and e2e tests are present. The
state machine: fetch the pod (error → Deny 500; not found → Deny(404,
NotFound, "pod already rescheduled")); unmanaged pods → Allow; the
reschedule marker already present and equal to the configured value →
Deny(429, TooManyRequests, "pod waiting to be rescheduled"); otherwise run
the tracking sub-protocol when tracking is enabled, then mark the pod for
reschedule. -/
def decide (cfg : Config) (f : Faults) (st : ClusterState) (evNs evName : String) :
    Verdict × ClusterState :=
  if f.getPodFail then
    (Verdict.deny 500 "InternalError" "failed to get pod", st)
  else
    match st.pods evNs evName with
    | none => (Verdict.deny 404 "NotFound" "pod already rescheduled", st)
    | some pod =>
      if labelValue pod.labels cfg.podLabelSelectorKey ≠ cfg.podLabelSelectorValue then
        (Verdict.allow, st)
      else if pod.annotations cfg.rescheduleAnnotationKey = some cfg.rescheduleAnnotationValue then
        (Verdict.deny 429 "TooManyRequests" "pod waiting to be rescheduled", st)
      else if cfg.trackRescheduledPods then
        trackingStep cfg f st evNs evName pod
      else
        markStep cfg f st evNs evName pod

end Reschedule

namespace ListTracking

/-!
The superseded list-based pipeline, translated from the documents present
verbatim under `src/pkg/reschedule/reschedule.go` (first document) and
`src/pkg/reschedule/client.go`. The spec (§9) flags this encoding as a
prior, race-prone design; it is embedded here because several claims cite
its code directly (notably `GetClusterInfo`).
-/

/-- `metav1.Status` restricted to the fields `denyEviction` sets. -/
structure Status where
  status : String
  message : String
  reason : String
  code : Nat
deriving DecidableEq

/-- `admissionv1.AdmissionResponse` restricted to the fields the handler
sets. -/
structure AdmissionResponse where
  allowed : Bool
  result : Option Status
deriving DecidableEq

/-- `denyEviction` from `src/pkg/reschedule/reschedule.go` lines 265-275.
The source takes a `reason` parameter but sets the status reason to the
literal `metav1.StatusReasonInvalid` (`"Invalid"`), ignoring the parameter;
the embedding reproduces that. -/
def denyEviction (code : Nat) (reason : String) (message : String) : AdmissionResponse :=
  let _ := reason
  { allowed := false
    result := some { status := "Failure", message := message, reason := "Invalid", code := code } }

/-- `allowEviction` from `src/pkg/reschedule/reschedule.go` lines 277-281. -/
def allowEviction : AdmissionResponse :=
  { allowed := true, result := none }

/-- A CouchbaseCluster object as `GetClusterInfo` reads it: annotation map
plus the `spec.upgradeProcess` field. -/
structure CouchbaseClusterObj where
  annotations : AnnMap
  upgradeProcessField : NestedField

/-- The remote store for the list-based pipeline: pods and CouchbaseCluster
resources, each keyed by (namespace, name). -/
structure State where
  pods : String → String → Option Pod
  clusters : String → String → Option CouchbaseClusterObj

/-- Replace the cluster stored under (namespace, name). -/
def setCluster (clusters : String → String → Option CouchbaseClusterObj) (ns n : String)
    (c : CouchbaseClusterObj) : String → String → Option CouchbaseClusterObj :=
  fun ns' n' => if ns' = ns ∧ n' = n then some c else clusters ns' n'

/-- Fault injection for the list-based pipeline's accessor calls. -/
structure Faults where
  getPodFail : Bool
  patchListFail : Bool
  reschedulePodFail : Bool

/-- `ClusterInfo` from `src/pkg/reschedule/client.go` lines 45-49. -/
structure ClusterInfo where
  clusterAnnotations : AnnMap
  rescheduleHookPodsList : List String
  inPlaceUpgrade : Bool

/-- `GetClusterInfo` from `src/pkg/reschedule/client.go` lines 82-97: fetch
the CouchbaseCluster (fetch failure → error), read `spec.upgradeProcess` as
a nested string (read error or field not found → error), and return the
cluster's annotations together with the in-place-upgrade bit. Note the
source leaves `rescheduleHookPodsList` unset (nil). -/
def GetClusterInfo (st : State) (name ns : String) : Except String ClusterInfo :=
  match st.clusters ns name with
  | none => Except.error "failed to get cluster"
  | some cluster =>
    match cluster.upgradeProcessField with
    | NestedField.str s =>
      Except.ok
        { clusterAnnotations := cluster.annotations
          rescheduleHookPodsList := []
          inPlaceUpgrade := s == InPlaceUpgradeStrategyValue }
    | _ => Except.error "error reading cluster upgrade strategy"

/-- JSON encoding of a string list as `json.Marshal` produces it for plain
names (no escaping is needed for Kubernetes pod names). -/
def jsonStringList (list : List String) : String :=
  "[" ++ String.intercalate "," (list.map (fun s => "\"" ++ s ++ "\"")) ++ "]"

/-- `PatchRescheduleHookPodsList` from `src/pkg/reschedule/client.go` lines
135-148: an empty list removes the aggregated-list annotation, otherwise the
whole list is re-marshalled into the single list key (the read-modify-write
encoding the spec supersedes). Patching an absent resource is an error. -/
def PatchRescheduleHookPodsList (fail : Bool) (st : State) (clusterName ns : String)
    (list : List String) : Except String State :=
  if fail then Except.error "patch failed"
  else
    match st.clusters ns clusterName with
    | none => Except.error "failed to patch cluster"
    | some cluster =>
      let anns :=
        if list.isEmpty then delAnn cluster.annotations RescheduleHookPodsListAnnotationKey
        else setAnn cluster.annotations RescheduleHookPodsListAnnotationKey (jsonStringList list)
      Except.ok { st with clusters := setCluster st.clusters ns clusterName { cluster with annotations := anns } }

/-- `handlePreviouslyRescheduledPodsList` from
`src/pkg/reschedule/reschedule.go` lines 232-263: fetch the cluster info
(failure → Deny(500, InternalError, "Failed to get required cluster info"));
a pod present in the aggregated list is removed from it and the eviction is
allowed; otherwise, when `shouldUpdateList`, the pod is appended to the
list; `none` means no terminal verdict. -/
def handlePreviouslyRescheduledPodsList (f : Faults) (st : State)
    (pod cluster ns : String) (shouldUpdateList : Bool) :
    Option AdmissionResponse × State :=
  match GetClusterInfo st cluster ns with
  | Except.error _ =>
    (some (denyEviction 500 "InternalError" "Failed to get required cluster info"), st)
  | Except.ok clusterInfo =>
    if clusterInfo.rescheduleHookPodsList.contains pod then
      match PatchRescheduleHookPodsList f.patchListFail st cluster ns
          (clusterInfo.rescheduleHookPodsList.filter (fun s => s ≠ pod)) with
      | Except.error _ =>
        (some (denyEviction 500 "InternalError" "Failed to remove pod from tracking list"), st)
      | Except.ok st' => (some allowEviction, st')
    else if shouldUpdateList then
      match PatchRescheduleHookPodsList f.patchListFail st cluster ns
          (clusterInfo.rescheduleHookPodsList ++ [pod]) with
      | Except.error _ =>
        (some (denyEviction 500 "InternalError" "Failed to update rescheduled pods tracking list"), st)
      | Except.ok st' => (none, st')
    else (none, st)

/-- Source constant `TrackRescheduledPods` from
`src/pkg/reschedule/reschedule.go` line 26. -/
def TrackRescheduledPods : Bool := true

/-- `handleEviction` from `src/pkg/reschedule/reschedule.go` lines 171-225
(the list-based document): pod fetch error → Deny 500; pod not found →
allow; non-couchbase label → allow; marker already present → Deny 429;
otherwise consult the list sub-protocol and finally patch the reschedule
marker. -/
def handleEviction (f : Faults) (st : State) (evNs evName : String) :
    AdmissionResponse × State :=
  if f.getPodFail then
    (denyEviction 500 "InternalError" "Failed to get pod", st)
  else
    match st.pods evNs evName with
    | none => (allowEviction, st)
    | some pod =>
      if labelValue pod.labels "app" ≠ "couchbase" then (allowEviction, st)
      else if pod.annotations RescheduleAnnotationKey = some RescheduleTrue then
        (denyEviction 429 "TooManyRequests" "Couchbase pod awaiting reschedule", st)
      else
        let afterTrack :=
          if TrackRescheduledPods then
            handlePreviouslyRescheduledPodsList f st pod.name
              (labelValue pod.labels CouchbaseClusterLabelKey) evNs true
          else (none, st)
        match afterTrack with
        | (some response, st') => (response, st')
        | (none, st') =>
          if f.reschedulePodFail then
            (denyEviction 500 "InternalError" "Failed to add reschedule annotation to pod", st')
          else
            (denyEviction 429 "TooManyRequests" "Reschedule annotation added to pod",
             { st' with
                pods := setPod st'.pods evNs evName
                  { pod with
                     annotations := setAnn pod.annotations RescheduleAnnotationKey RescheduleTrue } })

end ListTracking

/-- Read an annotation of the tracking instance stored at
(namespace, instance name), `none` when the instance is absent. -/
def instAnn (st : ClusterState) (ns iname k : String) : Option String :=
  match st.insts ns iname with
  | some i => i.annotations k
  | none => none

/-- Read an annotation of the pod stored at (namespace, name), `none` when
the pod is absent. -/
def podAnn (st : ClusterState) (ns n k : String) : Option String :=
  match st.pods ns n with
  | some p => p.annotations k
  | none => none

/-- Concrete fixture: a managed couchbase pod of cluster `cb`, mirroring the
pods built by the e2e framework's `MustCreateCouchbasePod`. -/
def podA : Pod where
  name := "db-0"
  ns := "default"
  labels := fun k =>
    if k = "app" then some "couchbase"
    else if k = "couchbase_cluster" then some "cb" else none
  annotations := fun _ => none

/-- Concrete fixture: `podA` already carrying the reschedule marker. -/
def podMarked : Pod :=
  { podA with
     annotations := fun k => if k = RescheduleAnnotationKey then some "true" else none }

/-- Concrete fixture: an unmanaged pod (label predicate fails). -/
def podOther : Pod :=
  { podA with labels := fun k => if k = "app" then some "busybox" else none }

/-- Concrete fixture: a tracking instance with `upgradeProcess =
InPlaceUpgrade` and no annotations. -/
def instInPlace : TrackingInstanceObj where
  annotations := emptyAnn
  upgradeProcessField := NestedField.str "InPlaceUpgrade"

/-- Concrete fixture: a tracking instance with `upgradeProcess =
SwapRebalance` (ineligible for tracking). -/
def instSwap : TrackingInstanceObj where
  annotations := emptyAnn
  upgradeProcessField := NestedField.str "SwapRebalance"

/-- Concrete fixture: an eligible instance already carrying `podA`'s
tracking flag. -/
def instFlagged : TrackingInstanceObj where
  annotations := fun k =>
    if k = TrackingResourceAnnotationKey "db-0" "default" then some "true" else none
  upgradeProcessField := NestedField.str "InPlaceUpgrade"

/-- Concrete fixture: a store holding at most `podA`'s slot and the `cb`
instance slot in namespace `default`. -/
def mkState (p : Option Pod) (i : Option TrackingInstanceObj) : ClusterState where
  pods := fun ns n => if ns = "default" ∧ n = "db-0" then p else none
  insts := fun ns n => if ns = "default" ∧ n = "cb" then i else none

/-- Concrete fixture: the empty store. -/
def emptySt : ClusterState := mkState none none

/-- Concrete fixture: every accessor call except the pod fetch fails. -/
def faultsAllButGetPod : Faults := ⟨false, true, true, true, true⟩

/-- Concrete fixture: only the tracking-resource fetch fails. -/
def faultsGetInstance : Faults := ⟨false, true, false, false, false⟩

/-- Concrete fixture: only the tracking-flag write fails. -/
def faultsAddFlag : Faults := ⟨false, false, true, false, false⟩

/-- Concrete fixture: only the tracking-flag clear fails. -/
def faultsRemoveFlag : Faults := ⟨false, false, false, true, false⟩

/-- Concrete fixture: only the reschedule-marker patch fails. -/
def faultsReschedule : Faults := ⟨false, false, false, false, true⟩

/-- Concrete fixture: a CouchbaseCluster object whose `spec.upgradeProcess`
field is absent, for the list-based pipeline. -/
def clusterNoField : ListTracking.CouchbaseClusterObj where
  annotations := emptyAnn
  upgradeProcessField := NestedField.missing

/-- Concrete fixture: list-based store holding `podA` and the `cb` cluster
without a readable `spec.upgradeProcess`. -/
def lstState : ListTracking.State where
  pods := fun ns n => if ns = "default" ∧ n = "db-0" then some podA else none
  clusters := fun ns n => if ns = "default" ∧ n = "cb" then some clusterNoField else none

/-- Concrete fixture: all list-pipeline accessor calls succeed. -/
def lstNoFaults : ListTracking.Faults := ⟨false, false, false⟩

/-! ## Helper lemmas -/

/-- Left cancellation for string append. -/
theorem stringAppend_left_cancel (s a b : String) (h : s ++ a = s ++ b) : a = b := by
  have hd := congrArg String.data h
  simp only [String.data_append] at hd
  exact String.ext (List.append_cancel_left hd)

/-- Two pods of the same namespace with different names get different
tracking-flag keys. -/
theorem trackingKey_inj (nsp n1 n2 : String) (h : n1 ≠ n2) :
    TrackingResourceAnnotationKey n1 nsp ≠ TrackingResourceAnnotationKey n2 nsp := by
  intro he
  apply h
  unfold TrackingResourceAnnotationKey at he
  exact stringAppend_left_cancel _ _ _ he

/-- The mark step never touches the tracking-instance store. -/
theorem markStep_insts (cfg : Config) (f : Faults) (st : ClusterState)
    (evNs evName : String) (pod : Pod) :
    ((Reschedule.markStep cfg f st evNs evName pod).2).insts = st.insts := by
  unfold Reschedule.markStep
  split <;> rfl

/-- Under the hypotheses that reach step 4, the engine defers to the
tracking sub-protocol. -/
theorem decide_eq_trackingStep (cfg : Config) (f : Faults) (st : ClusterState)
    (evNs evName : String) (pod : Pod)
    (hf : f.getPodFail = false) (hp : st.pods evNs evName = some pod)
    (hl : labelValue pod.labels cfg.podLabelSelectorKey = cfg.podLabelSelectorValue)
    (ha : pod.annotations cfg.rescheduleAnnotationKey ≠ some cfg.rescheduleAnnotationValue)
    (ht : cfg.trackRescheduledPods = true) :
    Reschedule.decide cfg f st evNs evName = Reschedule.trackingStep cfg f st evNs evName pod := by
  simp [Reschedule.decide, hf, hp, hl, ha, ht]

/-- With tracking disabled, the engine goes straight to the mark step. -/
theorem decide_eq_markStep (cfg : Config) (f : Faults) (st : ClusterState)
    (evNs evName : String) (pod : Pod)
    (hf : f.getPodFail = false) (hp : st.pods evNs evName = some pod)
    (hl : labelValue pod.labels cfg.podLabelSelectorKey = cfg.podLabelSelectorValue)
    (ha : pod.annotations cfg.rescheduleAnnotationKey ≠ some cfg.rescheduleAnnotationValue)
    (ht : cfg.trackRescheduledPods = false) :
    Reschedule.decide cfg f st evNs evName = Reschedule.markStep cfg f st evNs evName pod := by
  simp [Reschedule.decide, hf, hp, hl, ha, ht]

/-- The tracking sub-protocol on a present flag clears exactly that flag
and returns the same-name 404 verdict. -/
theorem trackingStep_flagPresent (cfg : Config) (f : Faults) (st : ClusterState)
    (evNs evName : String) (pod : Pod) (inst : TrackingInstanceObj)
    (hgi : f.getInstanceFail = false)
    (hinst : st.insts evNs (cfg.trackingResource.getInstanceName pod) = some inst)
    (hflag : inst.annotations (TrackingResourceAnnotationKey evName evNs) = some RescheduleTrue)
    (hrm : f.removeFlagFail = false) :
    Reschedule.trackingStep cfg f st evNs evName pod
      = (Verdict.deny 404 "NotFound" "pod rescheduled with same name",
         { st with
            insts := setInst st.insts evNs (cfg.trackingResource.getInstanceName pod)
              { inst with annotations := removeTrackingFlag inst.annotations evName evNs } }) := by
  simp [Reschedule.trackingStep, hgi, hinst, hflag, hrm]

/-- The tracking sub-protocol on an absent flag falls through to the mark
step, writing the flag first exactly when the backend is eligible. -/
theorem trackingStep_flagAbsent (cfg : Config) (f : Faults) (st : ClusterState)
    (evNs evName : String) (pod : Pod) (inst : TrackingInstanceObj)
    (hgi : f.getInstanceFail = false)
    (hinst : st.insts evNs (cfg.trackingResource.getInstanceName pod) = some inst)
    (hflag : inst.annotations (TrackingResourceAnnotationKey evName evNs) ≠ some RescheduleTrue)
    (haf : f.addFlagFail = false) :
    Reschedule.trackingStep cfg f st evNs evName pod
      = Reschedule.markStep cfg f
          (if cfg.trackingResource.shouldTrack inst then
            { st with
               insts := setInst st.insts evNs (cfg.trackingResource.getInstanceName pod)
                 { inst with annotations := addTrackingFlag inst.annotations evName evNs } }
           else st) evNs evName pod := by
  by_cases hs : cfg.trackingResource.shouldTrack inst <;>
    simp [Reschedule.trackingStep, hgi, hinst, hflag, haf, hs]

/-- A successful mark step returns the reschedule-initiated 429 and patches
the marker onto the stored pod. -/
theorem markStep_ok (cfg : Config) (f : Faults) (st : ClusterState)
    (evNs evName : String) (pod : Pod) (hr : f.reschedulePodFail = false) :
    Reschedule.markStep cfg f st evNs evName pod
      = (Verdict.deny 429 "TooManyRequests" "reschedule annotation added to pod",
         { st with
            pods := setPod st.pods evNs evName
              { pod with
                 annotations := setAnn pod.annotations cfg.rescheduleAnnotationKey
                   cfg.rescheduleAnnotationValue } }) := by
  simp [Reschedule.markStep, hr]

/-- Shape of the engine's effect on the tracking-instance store: it is
untouched, or exactly one stored instance has the current pod's flag
written, or exactly one stored instance has it cleared. -/
theorem decide_insts_shape (cfg : Config) (f : Faults) (st : ClusterState)
    (evNs evName : String) :
    ((Reschedule.decide cfg f st evNs evName).2).insts = st.insts ∨
    (∃ iname inst, st.insts evNs iname = some inst ∧
       ((Reschedule.decide cfg f st evNs evName).2).insts
         = setInst st.insts evNs iname
             { inst with annotations := addTrackingFlag inst.annotations evName evNs }) ∨
    (∃ iname inst, st.insts evNs iname = some inst ∧
       ((Reschedule.decide cfg f st evNs evName).2).insts
         = setInst st.insts evNs iname
             { inst with annotations := removeTrackingFlag inst.annotations evName evNs }) := by
  by_cases hgp : f.getPodFail = true
  · left
    simp [Reschedule.decide, hgp]
  have hgp' : f.getPodFail = false := by simpa using hgp
  cases hp : st.pods evNs evName with
  | none =>
    left
    simp [Reschedule.decide, hgp', hp]
  | some pod =>
    by_cases hl : labelValue pod.labels cfg.podLabelSelectorKey = cfg.podLabelSelectorValue
    case neg =>
      left
      simp [Reschedule.decide, hgp', hp, hl]
    case pos =>
    by_cases ha : pod.annotations cfg.rescheduleAnnotationKey = some cfg.rescheduleAnnotationValue
    · left
      simp [Reschedule.decide, hgp', hp, hl, ha]
    by_cases ht : cfg.trackRescheduledPods = true
    case neg =>
      have ht' : cfg.trackRescheduledPods = false := by simpa using ht
      left
      rw [decide_eq_markStep cfg f st evNs evName pod hgp' hp hl ha ht']
      exact markStep_insts cfg f st evNs evName pod
    case pos =>
    rw [decide_eq_trackingStep cfg f st evNs evName pod hgp' hp hl ha ht]
    by_cases hgi : f.getInstanceFail = true
    · left
      simp [Reschedule.trackingStep, hgi]
    have hgi' : f.getInstanceFail = false := by simpa using hgi
    cases hi : st.insts evNs (cfg.trackingResource.getInstanceName pod) with
    | none =>
      left
      simp [Reschedule.trackingStep, hgi', hi]
    | some inst =>
      by_cases hflag :
          inst.annotations (TrackingResourceAnnotationKey evName evNs) = some RescheduleTrue
      · by_cases hrm : f.removeFlagFail = true
        · left
          simp [Reschedule.trackingStep, hgi', hi, hflag, hrm]
        · have hrm' : f.removeFlagFail = false := by simpa using hrm
          right; right
          refine ⟨cfg.trackingResource.getInstanceName pod, inst, hi, ?_⟩
          rw [trackingStep_flagPresent cfg f st evNs evName pod inst hgi' hi hflag hrm']
      · by_cases hs : cfg.trackingResource.shouldTrack inst = true
        · by_cases haf : f.addFlagFail = true
          · left
            simp [Reschedule.trackingStep, hgi', hi, hflag, hs, haf]
          · have haf' : f.addFlagFail = false := by simpa using haf
            right; left
            refine ⟨cfg.trackingResource.getInstanceName pod, inst, hi, ?_⟩
            have heq : Reschedule.trackingStep cfg f st evNs evName pod
                = Reschedule.markStep cfg f
                    { st with
                       insts := setInst st.insts evNs (cfg.trackingResource.getInstanceName pod)
                         { inst with
                            annotations := addTrackingFlag inst.annotations evName evNs } }
                    evNs evName pod := by
              simp [Reschedule.trackingStep, hgi', hi, hflag, hs, haf']
            rw [heq, markStep_insts]
        · have hs' : cfg.trackingResource.shouldTrack inst = false := by simpa using hs
          left
          have heq : Reschedule.trackingStep cfg f st evNs evName pod
              = Reschedule.markStep cfg f st evNs evName pod := by
            simp [Reschedule.trackingStep, hgi', hi, hflag, hs']
          rw [heq, markStep_insts]

/-! ## Claim theorems -/

/-- Claim C1: when the pod fetch reports not-found, the decision engine
returns the terminal verdict Deny with HTTP status 404, reason code
NotFound and message "pod already rescheduled" (not Allow), leaving the
store untouched. -/
theorem notFoundPodYieldsDeny404 (cfg : Config) (f : Faults) (st : ClusterState)
    (evNs evName : String) (hf : f.getPodFail = false)
    (hp : st.pods evNs evName = none) :
    Reschedule.decide cfg f st evNs evName
      = (Verdict.deny 404 "NotFound" "pod already rescheduled", st) := by
  simp [Reschedule.decide, hf, hp]

/-- Witness for C1: evicting an absent pod from the empty store. -/
theorem notFoundPodYieldsDeny404_witness :
    Reschedule.decide defaultConfig noFaults emptySt "default" "gone"
      = (Verdict.deny 404 "NotFound" "pod already rescheduled", emptySt) :=
  notFoundPodYieldsDeny404 defaultConfig noFaults emptySt "default" "gone" rfl rfl

/-- Claim C8: a pod whose managed-label predicate fails is always allowed,
regardless of annotation state and of faults on every later accessor, and
the store is unchanged. -/
theorem unmanagedPodAllowed (cfg : Config) (f : Faults) (st : ClusterState)
    (evNs evName : String) (pod : Pod)
    (hf : f.getPodFail = false) (hp : st.pods evNs evName = some pod)
    (hl : labelValue pod.labels cfg.podLabelSelectorKey ≠ cfg.podLabelSelectorValue) :
    Reschedule.decide cfg f st evNs evName = (Verdict.allow, st) := by
  simp [Reschedule.decide, hf, hp, hl]

/-- Witness for C8: a busybox-labelled pod is allowed even with every
tracking accessor failing. -/
theorem unmanagedPodAllowed_witness :
    Reschedule.decide defaultConfig faultsAllButGetPod (mkState (some podOther) none)
      "default" "db-0" = (Verdict.allow, mkState (some podOther) none) :=
  unmanagedPodAllowed defaultConfig faultsAllButGetPod (mkState (some podOther) none)
    "default" "db-0" podOther rfl rfl (by decide)

/-- Claim C6: a managed pod whose reschedule marker is already present and
equal to the configured value gets the terminal verdict Deny(429,
TooManyRequests, "pod waiting to be rescheduled") with the store untouched
— for arbitrary faults on the tracking accessors and the marker patch,
showing that neither the tracking resource nor any write is consulted —
and the identical call repeated on the resulting store returns exactly the
same verdict. -/
theorem pendingMarkerTerminalIdempotent (cfg : Config) (f : Faults) (st : ClusterState)
    (evNs evName : String) (pod : Pod)
    (hf : f.getPodFail = false) (hp : st.pods evNs evName = some pod)
    (hl : labelValue pod.labels cfg.podLabelSelectorKey = cfg.podLabelSelectorValue)
    (ha : pod.annotations cfg.rescheduleAnnotationKey = some cfg.rescheduleAnnotationValue) :
    Reschedule.decide cfg f st evNs evName
        = (Verdict.deny 429 "TooManyRequests" "pod waiting to be rescheduled", st) ∧
      Reschedule.decide cfg f (Reschedule.decide cfg f st evNs evName).2 evNs evName
        = (Verdict.deny 429 "TooManyRequests" "pod waiting to be rescheduled", st) := by
  have h1 : Reschedule.decide cfg f st evNs evName
      = (Verdict.deny 429 "TooManyRequests" "pod waiting to be rescheduled", st) := by
    simp [Reschedule.decide, hf, hp, hl, ha]
  exact ⟨h1, by rw [h1]; exact h1⟩

/-- Witness for C6: a marked pod, with every tracking accessor failing and
no tracking instance stored at all. -/
theorem pendingMarkerTerminalIdempotent_witness :
    Reschedule.decide defaultConfig faultsAllButGetPod (mkState (some podMarked) none)
        "default" "db-0"
      = (Verdict.deny 429 "TooManyRequests" "pod waiting to be rescheduled",
         mkState (some podMarked) none) :=
  (pendingMarkerTerminalIdempotent defaultConfig faultsAllButGetPod
    (mkState (some podMarked) none) "default" "db-0" podMarked rfl rfl
    (by decide) (by decide)).1

/-- Claim C2: a managed pod without the reschedule marker whose per-pod
tracking flag is present (value "true") on the tracking instance has the
flag cleared and gets the terminal verdict Deny(404, NotFound,
"pod rescheduled with same name"); afterwards the per-pod flag is absent
from the tracking state. -/
theorem sameNameReincarnationCleared (cfg : Config) (f : Faults) (st : ClusterState)
    (evNs evName : String) (pod : Pod) (inst : TrackingInstanceObj)
    (hf : f.getPodFail = false) (hp : st.pods evNs evName = some pod)
    (hl : labelValue pod.labels cfg.podLabelSelectorKey = cfg.podLabelSelectorValue)
    (ha : pod.annotations cfg.rescheduleAnnotationKey ≠ some cfg.rescheduleAnnotationValue)
    (ht : cfg.trackRescheduledPods = true)
    (hgi : f.getInstanceFail = false)
    (hinst : st.insts evNs (cfg.trackingResource.getInstanceName pod) = some inst)
    (hflag : inst.annotations (TrackingResourceAnnotationKey evName evNs) = some RescheduleTrue)
    (hrm : f.removeFlagFail = false) :
    (Reschedule.decide cfg f st evNs evName).1
        = Verdict.deny 404 "NotFound" "pod rescheduled with same name" ∧
      instAnn (Reschedule.decide cfg f st evNs evName).2 evNs
        (cfg.trackingResource.getInstanceName pod)
        (TrackingResourceAnnotationKey evName evNs) = none := by
  rw [decide_eq_trackingStep cfg f st evNs evName pod hf hp hl ha ht,
    trackingStep_flagPresent cfg f st evNs evName pod inst hgi hinst hflag hrm]
  exact ⟨rfl, by simp [instAnn, setInst, removeTrackingFlag, delAnn]⟩

/-- Witness for C2: the same-name reincarnation of `podA`, with its flag
stored on the `cb` instance, is denied 404 and the flag is gone. -/
theorem sameNameReincarnationCleared_witness :
    (Reschedule.decide defaultConfig noFaults (mkState (some podA) (some instFlagged))
        "default" "db-0").1
        = Verdict.deny 404 "NotFound" "pod rescheduled with same name" ∧
      instAnn (Reschedule.decide defaultConfig noFaults
          (mkState (some podA) (some instFlagged)) "default" "db-0").2 "default"
        (defaultConfig.trackingResource.getInstanceName podA)
        (TrackingResourceAnnotationKey "db-0" "default") = none :=
  sameNameReincarnationCleared defaultConfig noFaults
    (mkState (some podA) (some instFlagged)) "default" "db-0" podA instFlagged
    rfl rfl (by decide) (by decide) rfl rfl rfl (by decide) rfl

/-- Claim C7: a managed pod without the marker that the tracking
sub-protocol does not short-circuit (tracking disabled, or flag absent with
working tracking accessors) gets, when the marker patch succeeds, the
terminal verdict Deny(429, TooManyRequests,
"reschedule annotation added to pod"), and afterwards the pod carries the
reschedule marker with the configured value. -/
theorem markSuccessYields429AndMarker (cfg : Config) (f : Faults) (st : ClusterState)
    (evNs evName : String) (pod : Pod)
    (hf : f.getPodFail = false) (hr : f.reschedulePodFail = false)
    (hp : st.pods evNs evName = some pod)
    (hl : labelValue pod.labels cfg.podLabelSelectorKey = cfg.podLabelSelectorValue)
    (ha : pod.annotations cfg.rescheduleAnnotationKey ≠ some cfg.rescheduleAnnotationValue) :
    (cfg.trackRescheduledPods = false →
       (Reschedule.decide cfg f st evNs evName).1
           = Verdict.deny 429 "TooManyRequests" "reschedule annotation added to pod" ∧
         podAnn (Reschedule.decide cfg f st evNs evName).2 evNs evName
           cfg.rescheduleAnnotationKey = some cfg.rescheduleAnnotationValue) ∧
    (∀ inst : TrackingInstanceObj, cfg.trackRescheduledPods = true →
       f.getInstanceFail = false → f.addFlagFail = false →
       st.insts evNs (cfg.trackingResource.getInstanceName pod) = some inst →
       inst.annotations (TrackingResourceAnnotationKey evName evNs) ≠ some RescheduleTrue →
       (Reschedule.decide cfg f st evNs evName).1
           = Verdict.deny 429 "TooManyRequests" "reschedule annotation added to pod" ∧
         podAnn (Reschedule.decide cfg f st evNs evName).2 evNs evName
           cfg.rescheduleAnnotationKey = some cfg.rescheduleAnnotationValue) := by
  constructor
  · intro ht
    rw [decide_eq_markStep cfg f st evNs evName pod hf hp hl ha ht,
      markStep_ok cfg f st evNs evName pod hr]
    exact ⟨rfl, by simp [podAnn, setPod, setAnn]⟩
  · intro inst ht hgi haf hinst hflag
    rw [decide_eq_trackingStep cfg f st evNs evName pod hf hp hl ha ht,
      trackingStep_flagAbsent cfg f st evNs evName pod inst hgi hinst hflag haf]
    by_cases hs : cfg.trackingResource.shouldTrack inst <;>
      simp only [hs, if_true, if_false, Bool.false_eq_true] <;>
      rw [markStep_ok _ f _ evNs evName pod hr] <;>
      exact ⟨rfl, by simp [podAnn, setPod, setAnn]⟩

/-- Witness for C7: evicting the fresh managed pod `podA` against the
eligible `cb` instance yields the reschedule-initiated 429 and the marker
annotation on the pod. -/
theorem markSuccessYields429AndMarker_witness :
    (Reschedule.decide defaultConfig noFaults (mkState (some podA) (some instInPlace))
        "default" "db-0").1
        = Verdict.deny 429 "TooManyRequests" "reschedule annotation added to pod" ∧
      podAnn (Reschedule.decide defaultConfig noFaults
          (mkState (some podA) (some instInPlace)) "default" "db-0").2 "default" "db-0"
        defaultConfig.rescheduleAnnotationKey = some defaultConfig.rescheduleAnnotationValue :=
  (markSuccessYields429AndMarker defaultConfig noFaults
      (mkState (some podA) (some instInPlace)) "default" "db-0" podA
      rfl rfl rfl (by decide) (by decide)).2 instInPlace rfl rfl rfl rfl (by decide)

/-- Claim C4: for a managed, unmarked pod with no existing flag, the
per-pod tracking flag is written iff the backend's eligibility predicate
holds for the instance (for the couchbasecluster backend that predicate is
exactly `upgradeProcess = "InPlaceUpgrade"`); the reschedule marker is
written to the pod regardless, and clearing an existing flag is attempted
regardless of eligibility. -/
theorem flagWriteGatedByEligibility (cfg : Config) (f : Faults) (st : ClusterState)
    (evNs evName : String) (pod : Pod) (inst : TrackingInstanceObj)
    (hf : f.getPodFail = false) (hr : f.reschedulePodFail = false)
    (hgi : f.getInstanceFail = false) (haf : f.addFlagFail = false)
    (hp : st.pods evNs evName = some pod)
    (hl : labelValue pod.labels cfg.podLabelSelectorKey = cfg.podLabelSelectorValue)
    (ha : pod.annotations cfg.rescheduleAnnotationKey ≠ some cfg.rescheduleAnnotationValue)
    (ht : cfg.trackRescheduledPods = true)
    (hinst : st.insts evNs (cfg.trackingResource.getInstanceName pod) = some inst)
    (hflag : inst.annotations (TrackingResourceAnnotationKey evName evNs) ≠ some RescheduleTrue) :
    (instAnn (Reschedule.decide cfg f st evNs evName).2 evNs
         (cfg.trackingResource.getInstanceName pod)
         (TrackingResourceAnnotationKey evName evNs) = some RescheduleTrue
       ↔ cfg.trackingResource.shouldTrack inst = true) ∧
    podAnn (Reschedule.decide cfg f st evNs evName).2 evNs evName
        cfg.rescheduleAnnotationKey = some cfg.rescheduleAnnotationValue ∧
    (∀ i : TrackingInstanceObj,
       (GetTrackingResource "couchbasecluster").shouldTrack i = true
         ↔ i.upgradeProcessField = NestedField.str InPlaceUpgradeStrategyValue) ∧
    (∀ (st2 : ClusterState) (f2 : Faults) (inst2 : TrackingInstanceObj),
       f2.getPodFail = false → f2.getInstanceFail = false → f2.removeFlagFail = false →
       st2.pods evNs evName = some pod →
       st2.insts evNs (cfg.trackingResource.getInstanceName pod) = some inst2 →
       inst2.annotations (TrackingResourceAnnotationKey evName evNs) = some RescheduleTrue →
       instAnn (Reschedule.decide cfg f2 st2 evNs evName).2 evNs
         (cfg.trackingResource.getInstanceName pod)
         (TrackingResourceAnnotationKey evName evNs) = none) := by
  rw [decide_eq_trackingStep cfg f st evNs evName pod hf hp hl ha ht,
    trackingStep_flagAbsent cfg f st evNs evName pod inst hgi hinst hflag haf]
  refine ⟨?_, ?_, ?_, ?_⟩
  · by_cases hs : cfg.trackingResource.shouldTrack inst <;>
      simp only [hs, if_true, if_false, Bool.false_eq_true] <;>
      rw [markStep_ok _ f _ evNs evName pod hr]
    · simp [instAnn, setInst, addTrackingFlag, setAnn]
    · simp only [instAnn, hinst]
      simp [hflag, hs]
  · by_cases hs : cfg.trackingResource.shouldTrack inst <;>
      simp only [hs, if_true, if_false, Bool.false_eq_true] <;>
      rw [markStep_ok _ f _ evNs evName pod hr] <;>
      simp [podAnn, setPod, setAnn]
  · intro i
    show CouchbaseClusterTrackingResource.shouldTrack i = true ↔ _
    cases hi : i.upgradeProcessField <;>
      simp [CouchbaseClusterTrackingResource, hi]
  · intro st2 f2 inst2 hf2 hgi2 hrm2 hp2 hinst2 hflag2
    rw [decide_eq_trackingStep cfg f2 st2 evNs evName pod hf2 hp2 hl ha ht,
      trackingStep_flagPresent cfg f2 st2 evNs evName pod inst2 hgi2 hinst2 hflag2 hrm2]
    simp [instAnn, setInst, removeTrackingFlag, delAnn]

/-- Witness for C4: `podA` against the eligible `cb` instance with no
existing flag — the flag is written (eligibility true) and the marker is
patched. -/
theorem flagWriteGatedByEligibility_witness :
    (instAnn (Reschedule.decide defaultConfig noFaults
         (mkState (some podA) (some instInPlace)) "default" "db-0").2 "default"
         (defaultConfig.trackingResource.getInstanceName podA)
         (TrackingResourceAnnotationKey "db-0" "default") = some RescheduleTrue
       ↔ defaultConfig.trackingResource.shouldTrack instInPlace = true) ∧
    podAnn (Reschedule.decide defaultConfig noFaults
        (mkState (some podA) (some instInPlace)) "default" "db-0").2 "default" "db-0"
      defaultConfig.rescheduleAnnotationKey = some defaultConfig.rescheduleAnnotationValue :=
  let h := flagWriteGatedByEligibility defaultConfig noFaults
    (mkState (some podA) (some instInPlace)) "default" "db-0" podA instInPlace
    rfl rfl rfl rfl rfl (by decide) (by decide) rfl rfl (by decide)
  ⟨h.1, h.2.1⟩

/-- Claim C3: writing or clearing the per-pod tracking flag mutates only
the single annotation key private to that pod, so for two distinct pods of
one tracking instance (same namespace, different names) the keys differ,
the mutations commute in either order, and neither write is lost. -/
theorem perPodFlagMutationsCommute (p1n p2n nsp : String) (h : p1n ≠ p2n) :
    TrackingResourceAnnotationKey p1n nsp ≠ TrackingResourceAnnotationKey p2n nsp ∧
    (∀ (m : AnnMap) (k : String), k ≠ TrackingResourceAnnotationKey p1n nsp →
       addTrackingFlag m p1n nsp k = m k ∧ removeTrackingFlag m p1n nsp k = m k) ∧
    (∀ m : AnnMap,
       addTrackingFlag (addTrackingFlag m p1n nsp) p2n nsp
         = addTrackingFlag (addTrackingFlag m p2n nsp) p1n nsp) ∧
    (∀ m : AnnMap,
       addTrackingFlag (addTrackingFlag m p1n nsp) p2n nsp
           (TrackingResourceAnnotationKey p1n nsp) = some RescheduleTrue ∧
       addTrackingFlag (addTrackingFlag m p1n nsp) p2n nsp
           (TrackingResourceAnnotationKey p2n nsp) = some RescheduleTrue) ∧
    (∀ m : AnnMap,
       removeTrackingFlag (addTrackingFlag m p1n nsp) p2n nsp
         = addTrackingFlag (removeTrackingFlag m p2n nsp) p1n nsp) := by
  have hk : TrackingResourceAnnotationKey p1n nsp ≠ TrackingResourceAnnotationKey p2n nsp :=
    trackingKey_inj nsp p1n p2n h
  have hk2 : TrackingResourceAnnotationKey p2n nsp ≠ TrackingResourceAnnotationKey p1n nsp :=
    Ne.symm hk
  refine ⟨hk, ?_, ?_, ?_, ?_⟩
  · intro m k hk1
    exact ⟨by simp [addTrackingFlag, setAnn, hk1], by simp [removeTrackingFlag, delAnn, hk1]⟩
  · intro m
    funext q
    by_cases h1 : q = TrackingResourceAnnotationKey p1n nsp
    · subst h1
      simp [addTrackingFlag, setAnn, hk]
    · by_cases h2 : q = TrackingResourceAnnotationKey p2n nsp <;>
        simp [addTrackingFlag, setAnn, h1, h2, hk2]
  · intro m
    constructor
    · simp [addTrackingFlag, setAnn, hk]
    · simp [addTrackingFlag, setAnn]
  · intro m
    funext q
    by_cases h1 : q = TrackingResourceAnnotationKey p1n nsp
    · subst h1
      simp [addTrackingFlag, removeTrackingFlag, setAnn, delAnn, hk]
    · by_cases h2 : q = TrackingResourceAnnotationKey p2n nsp <;>
        simp [addTrackingFlag, removeTrackingFlag, setAnn, delAnn, h1, h2, hk2]

/-- Witness for C3: the keys of `pod-1` and `pod-2` in namespace `default`
differ, and after both concurrent flag writes both flags read "true". -/
theorem perPodFlagMutationsCommute_witness :
    TrackingResourceAnnotationKey "pod-1" "default"
        ≠ TrackingResourceAnnotationKey "pod-2" "default" ∧
      addTrackingFlag (addTrackingFlag emptyAnn "pod-1" "default") "pod-2" "default"
          (TrackingResourceAnnotationKey "pod-1" "default") = some RescheduleTrue ∧
      addTrackingFlag (addTrackingFlag emptyAnn "pod-1" "default") "pod-2" "default"
          (TrackingResourceAnnotationKey "pod-2" "default") = some RescheduleTrue :=
  let h := perPodFlagMutationsCommute "pod-1" "pod-2" "default" (by decide)
  ⟨h.1, (h.2.2.2.1 emptyAnn).1, (h.2.2.2.1 emptyAnn).2⟩

/-- Claim C5: any annotation value the engine writes onto any stored
tracking instance sits under the key formed of the fixed prefix, the
eviction's namespace, a dot and the pod's name, and the written value is
"true". -/
theorem trackingWritesSingleKeyTrue (cfg : Config) (f : Faults) (st : ClusterState)
    (evNs evName a b k v : String)
    (hnew : instAnn (Reschedule.decide cfg f st evNs evName).2 a b k = some v)
    (hold : instAnn st a b k ≠ some v) :
    k = TrackingResourceAnnotationKey evName evNs ∧ v = RescheduleTrue ∧
      TrackingResourceAnnotationKey evName evNs
        = RescheduleHookTrackingPrefixStr ++ evNs ++ "." ++ evName := by
  rcases decide_insts_shape cfg f st evNs evName with h | ⟨iname, inst, hi, h⟩ | ⟨iname, inst, hi, h⟩
  · unfold instAnn at hnew hold
    rw [h] at hnew
    exact absurd hnew hold
  · unfold instAnn at hnew hold
    rw [h] at hnew
    simp only [setInst] at hnew
    by_cases hab : a = evNs ∧ b = iname
    · rw [if_pos hab] at hnew
      simp only [addTrackingFlag, setAnn] at hnew
      by_cases hk : k = TrackingResourceAnnotationKey evName evNs
      · rw [if_pos hk] at hnew
        exact ⟨hk, (Option.some.inj hnew).symm, rfl⟩
      · rw [if_neg hk] at hnew
        obtain ⟨ha1, hb1⟩ := hab
        subst ha1; subst hb1
        rw [hi] at hold
        exact absurd hnew hold
    · rw [if_neg hab] at hnew
      exact absurd hnew hold
  · unfold instAnn at hnew hold
    rw [h] at hnew
    simp only [setInst] at hnew
    by_cases hab : a = evNs ∧ b = iname
    · rw [if_pos hab] at hnew
      simp only [removeTrackingFlag, delAnn] at hnew
      by_cases hk : k = TrackingResourceAnnotationKey evName evNs
      · rw [if_pos hk] at hnew
        exact absurd hnew (by simp)
      · rw [if_neg hk] at hnew
        obtain ⟨ha1, hb1⟩ := hab
        subst ha1; subst hb1
        rw [hi] at hold
        exact absurd hnew hold
    · rw [if_neg hab] at hnew
      exact absurd hnew hold

/-- Witness for C5: the flag written for `podA` on the `cb` instance sits
under exactly the prefixed `default.db-0` key with value "true". -/
theorem trackingWritesSingleKeyTrue_witness :
    instAnn (mkState (some podA) (some instInPlace)) "default" "cb"
        (TrackingResourceAnnotationKey "db-0" "default") ≠ some "true" ∧
      (TrackingResourceAnnotationKey "db-0" "default"
            = TrackingResourceAnnotationKey "db-0" "default" ∧
        "true" = RescheduleTrue ∧
        TrackingResourceAnnotationKey "db-0" "default"
            = RescheduleHookTrackingPrefixStr ++ "default" ++ "." ++ "db-0") :=
  ⟨by decide,
   trackingWritesSingleKeyTrue defaultConfig noFaults
     (mkState (some podA) (some instInPlace)) "default" "db-0" "default" "cb"
     (TrackingResourceAnnotationKey "db-0" "default") "true" (by decide) (by decide)⟩

/-- Claim C9: every accessor failure other than not-found on the pod fetch
— pod-fetch error, tracking-resource fetch error, flag write or clear
error, and reschedule-marker patch error — is converted at the failing call
into a terminal Deny(500, InternalError, ...); the engine is a total
function, so no error propagates past it. -/
theorem accessorFailuresDeny500 :
    (∀ (cfg : Config) (f : Faults) (st : ClusterState) (a b : String),
       f.getPodFail = true →
       (Reschedule.decide cfg f st a b).1
         = Verdict.deny 500 "InternalError" "failed to get pod") ∧
    (∀ (cfg : Config) (f : Faults) (st : ClusterState) (a b : String) (pod : Pod),
       f.getPodFail = false → st.pods a b = some pod →
       labelValue pod.labels cfg.podLabelSelectorKey = cfg.podLabelSelectorValue →
       pod.annotations cfg.rescheduleAnnotationKey ≠ some cfg.rescheduleAnnotationValue →
       cfg.trackRescheduledPods = true → f.getInstanceFail = true →
       (Reschedule.decide cfg f st a b).1
         = Verdict.deny 500 "InternalError" "failed to get tracking resource") ∧
    (∀ (cfg : Config) (f : Faults) (st : ClusterState) (a b : String) (pod : Pod)
       (inst : TrackingInstanceObj),
       f.getPodFail = false → st.pods a b = some pod →
       labelValue pod.labels cfg.podLabelSelectorKey = cfg.podLabelSelectorValue →
       pod.annotations cfg.rescheduleAnnotationKey ≠ some cfg.rescheduleAnnotationValue →
       cfg.trackRescheduledPods = true → f.getInstanceFail = false →
       st.insts a (cfg.trackingResource.getInstanceName pod) = some inst →
       inst.annotations (TrackingResourceAnnotationKey b a) = some RescheduleTrue →
       f.removeFlagFail = true →
       (Reschedule.decide cfg f st a b).1
         = Verdict.deny 500 "InternalError" "failed to remove tracking annotation") ∧
    (∀ (cfg : Config) (f : Faults) (st : ClusterState) (a b : String) (pod : Pod)
       (inst : TrackingInstanceObj),
       f.getPodFail = false → st.pods a b = some pod →
       labelValue pod.labels cfg.podLabelSelectorKey = cfg.podLabelSelectorValue →
       pod.annotations cfg.rescheduleAnnotationKey ≠ some cfg.rescheduleAnnotationValue →
       cfg.trackRescheduledPods = true → f.getInstanceFail = false →
       st.insts a (cfg.trackingResource.getInstanceName pod) = some inst →
       inst.annotations (TrackingResourceAnnotationKey b a) ≠ some RescheduleTrue →
       cfg.trackingResource.shouldTrack inst = true → f.addFlagFail = true →
       (Reschedule.decide cfg f st a b).1
         = Verdict.deny 500 "InternalError" "failed to add tracking annotation") ∧
    (∀ (cfg : Config) (f : Faults) (st : ClusterState) (a b : String) (pod : Pod),
       f.getPodFail = false → st.pods a b = some pod →
       labelValue pod.labels cfg.podLabelSelectorKey = cfg.podLabelSelectorValue →
       pod.annotations cfg.rescheduleAnnotationKey ≠ some cfg.rescheduleAnnotationValue →
       cfg.trackRescheduledPods = false → f.reschedulePodFail = true →
       (Reschedule.decide cfg f st a b).1
         = Verdict.deny 500 "InternalError" "failed to add reschedule annotation") ∧
    (∀ (cfg : Config) (f : Faults) (st : ClusterState) (a b : String) (pod : Pod)
       (inst : TrackingInstanceObj),
       f.getPodFail = false → st.pods a b = some pod →
       labelValue pod.labels cfg.podLabelSelectorKey = cfg.podLabelSelectorValue →
       pod.annotations cfg.rescheduleAnnotationKey ≠ some cfg.rescheduleAnnotationValue →
       cfg.trackRescheduledPods = true → f.getInstanceFail = false →
       st.insts a (cfg.trackingResource.getInstanceName pod) = some inst →
       inst.annotations (TrackingResourceAnnotationKey b a) ≠ some RescheduleTrue →
       f.addFlagFail = false → f.reschedulePodFail = true →
       (Reschedule.decide cfg f st a b).1
         = Verdict.deny 500 "InternalError" "failed to add reschedule annotation") ∧
    (∀ (cfg : Config) (f : Faults) (st : ClusterState) (a b : String),
       (Reschedule.decide cfg f st a b).1 = Verdict.allow ∨
       ∃ c r m, (Reschedule.decide cfg f st a b).1 = Verdict.deny c r m) := by
  refine ⟨?_, ?_, ?_, ?_, ?_, ?_, ?_⟩
  · intro cfg f st a b hgp
    simp [Reschedule.decide, hgp]
  · intro cfg f st a b pod hf hp hl ha ht hgi
    rw [decide_eq_trackingStep cfg f st a b pod hf hp hl ha ht]
    simp [Reschedule.trackingStep, hgi]
  · intro cfg f st a b pod inst hf hp hl ha ht hgi hinst hflag hrm
    rw [decide_eq_trackingStep cfg f st a b pod hf hp hl ha ht]
    simp [Reschedule.trackingStep, hgi, hinst, hflag, hrm]
  · intro cfg f st a b pod inst hf hp hl ha ht hgi hinst hflag hs haf
    rw [decide_eq_trackingStep cfg f st a b pod hf hp hl ha ht]
    simp [Reschedule.trackingStep, hgi, hinst, hflag, hs, haf]
  · intro cfg f st a b pod hf hp hl ha ht hr
    rw [decide_eq_markStep cfg f st a b pod hf hp hl ha ht]
    simp [Reschedule.markStep, hr]
  · intro cfg f st a b pod inst hf hp hl ha ht hgi hinst hflag haf hr
    rw [decide_eq_trackingStep cfg f st a b pod hf hp hl ha ht,
      trackingStep_flagAbsent cfg f st a b pod inst hgi hinst hflag haf]
    by_cases hs : cfg.trackingResource.shouldTrack inst <;>
      simp [hs, Reschedule.markStep, hr]
  · intro cfg f st a b
    cases hv : (Reschedule.decide cfg f st a b).1 with
    | allow => exact Or.inl rfl
    | deny c r m => exact Or.inr ⟨c, r, m, rfl⟩

/-- Witness for C9: a failing flag write on the eligible path is converted
into the tracking-annotation Deny(500). -/
theorem accessorFailuresDeny500_witness :
    (Reschedule.decide defaultConfig faultsAddFlag
        (mkState (some podA) (some instInPlace)) "default" "db-0").1
      = Verdict.deny 500 "InternalError" "failed to add tracking annotation" :=
  accessorFailuresDeny500.2.2.2.1 defaultConfig faultsAddFlag
    (mkState (some podA) (some instInPlace)) "default" "db-0" podA instInPlace
    rfl rfl (by decide) (by decide) rfl rfl rfl (by decide) (by decide) rfl

/-- Claim C10: in the list-based pipeline present under `src/`, a
CouchbaseCluster without a readable string `spec.upgradeProcess` makes
`GetClusterInfo` return an error, so the eviction of every managed pod
without the reschedule marker is denied with code 500 (the InternalError
call site), with no state change — eligibility evaluation is not fail-open
here. -/
theorem missingUpgradeProcessDenies500 (f : ListTracking.Faults) (st : ListTracking.State)
    (evNs evName : String) (pod : Pod) (cluster : ListTracking.CouchbaseClusterObj)
    (hf : f.getPodFail = false)
    (hp : st.pods evNs evName = some pod)
    (hl : labelValue pod.labels "app" = "couchbase")
    (ha : pod.annotations RescheduleAnnotationKey ≠ some RescheduleTrue)
    (hc : st.clusters evNs (labelValue pod.labels CouchbaseClusterLabelKey) = some cluster)
    (hnostr : ∀ s, cluster.upgradeProcessField ≠ NestedField.str s) :
    ListTracking.handleEviction f st evNs evName
      = (ListTracking.denyEviction 500 "InternalError" "Failed to get required cluster info",
         st) := by
  have hgc : ListTracking.GetClusterInfo st
      (labelValue pod.labels CouchbaseClusterLabelKey) evNs
      = Except.error "error reading cluster upgrade strategy" := by
    unfold ListTracking.GetClusterInfo
    rw [hc]
    cases hcf : cluster.upgradeProcessField with
    | missing => simp [hcf]
    | wrongType => simp [hcf]
    | str s => exact absurd hcf (hnostr s)
  simp [ListTracking.handleEviction, hf, hp, hl, ha, ListTracking.TrackRescheduledPods,
    ListTracking.handlePreviouslyRescheduledPodsList, hgc]

/-- Witness for C10: `podA` against the `cb` cluster whose
`spec.upgradeProcess` is absent is denied with the cluster-info 500. -/
theorem missingUpgradeProcessDenies500_witness :
    ListTracking.handleEviction lstNoFaults lstState "default" "db-0"
      = (ListTracking.denyEviction 500 "InternalError" "Failed to get required cluster info",
         lstState) :=
  missingUpgradeProcessDenies500 lstNoFaults lstState "default" "db-0" podA clusterNoField
    rfl rfl (by decide) (by decide) rfl (fun s h => NestedField.noConfusion h)

